import Mathlib

/-!
Verification development for the JARVIS agent core: intent classification,
capability dispatch, permission gating, the SafeCommandRunner allowlist,
the consent ledger and the audit trail.  Every definition is a shallow
embedding of the corresponding Python function in `app/`.
-/

namespace Jarvis

/-- Python values as they occur in the argument dictionaries and result
dictionaries of the agent core (`Dict[str, Any]`).  `strlist` models a
Python list of strings, `vdict` a nested dictionary. -/
inductive Value where
  | null    : Value
  | bool    : Bool → Value
  | int     : Int → Value
  | str     : String → Value
  | strlist : List String → Value
  | vdict   : List (String × Value) → Value

/-- An argument dictionary (`Dict[str, Any]` with the keys that actually
occur in the core). -/
abbrev Args := List (String × Value)

/-- `payload.get(key)`: first binding wins, `None` when absent
(the embedded dictionaries are built with distinct keys, matching the
Python dict literals). -/
def getArg : Args → String → Option Value
  | [], _ => none
  | (k, v) :: rest, key => if k = key then some v else getArg rest key

/-- `needle` is a prefix of `haystack` (character lists). -/
def charsPrefixOf : List Char → List Char → Bool
  | [], _ => true
  | _ :: _, [] => false
  | a :: as, b :: bs => a == b && charsPrefixOf as bs

/-- Python substring containment `needle in haystack` on character lists. -/
def charsContains (needle : List Char) : List Char → Bool
  | [] => needle.isEmpty
  | b :: bs => charsPrefixOf needle (b :: bs) || charsContains needle bs

/-- Python `needle in haystack` for strings. -/
def strContains (haystack needle : String) : Bool :=
  charsContains needle.data haystack.data

/-- `message.lower()` (ASCII case folding, which is all the keyword
matching needs; written over the character list so it reduces). -/
def strLower (s : String) : String :=
  String.mk (s.data.map Char.toLower)

/-! ### app/tools/permissions.py -/

/-- `SENSITIVE_TOOLS` from `app/tools/permissions.py`. -/
def SENSITIVE_TOOLS : List String :=
  ["calendar_crud", "email_message", "smart_home_control", "system_command"]

/-- `check_permission(tool_name, payload)` from `app/tools/permissions.py`.
The Python guard `approved is True` holds exactly for the boolean `True`,
never for truthy non-booleans. -/
def check_permission (tool_name : String) (payload : Args) : Bool × String :=
  if tool_name ∉ SENSITIVE_TOOLS then (true, "")
  else
    match getArg payload "approved" with
    | some (Value.bool true) => (true, "")
    | _ => (false, "Permission required to run " ++ tool_name ++ ".")

/-! ### app/agent/router.py : intent detection and tool selection -/

/-- `detect_intent(message)` from `app/agent/router.py`: ordered keyword
groups over the lowered message, first matching group wins. -/
def detect_intent (message : String) : String :=
  let lowered := strLower message
  if ["remember", "save", "note"].any (fun w => strContains lowered w) then
    "remember"
  else if ["summary", "summarize"].any (fun w => strContains lowered w) then
    "store_summary"
  else if ["task", "todo", "remind"].any (fun w => strContains lowered w) then
    "create_task"
  else if ["recall", "search", "lookup", "find memory"].any (fun w => strContains lowered w) then
    "recall"
  else if ["calendar", "schedule", "meeting", "appointment"].any (fun w => strContains lowered w) then
    "calendar"
  else if ["email", "mail", "inbox", "message"].any (fun w => strContains lowered w) then
    "email"
  else if ["home assistant", "smart home", "lights", "thermostat"].any (fun w => strContains lowered w) then
    "smart_home"
  else if ["run command", "execute", "terminal", "shell"].any (fun w => strContains lowered w) then
    "system_command"
  else "general"

/-- `select_tools(intent)` from `app/agent/router.py`. -/
def select_tools (intent : String) : List String :=
  if intent = "remember" then ["remember"]
  else if intent = "create_task" then ["create_task"]
  else if intent = "store_summary" then ["store_summary"]
  else if intent = "recall" then ["recall"]
  else if intent = "calendar" then ["calendar_crud"]
  else if intent = "email" then ["email_message"]
  else if intent = "smart_home" then ["smart_home_control"]
  else if intent = "system_command" then ["system_command"]
  else []

example : detect_intent "note to remind me" = "remember" := by decide
example : detect_intent "remind me to buy milk" = "create_task" := by rfl
example : check_permission "calendar_crud" [("approved", Value.int 1)]
    = (false, "Permission required to run calendar_crud.") := by rfl

/-! ### app/tools/adapters.py : SafeCommandRunner -/

/-- `SafeCommandRunner.SAFE_COMMANDS`: base command → permitted flags. -/
def SAFE_COMMANDS : List (String × List String) :=
  [("date", []), ("whoami", []), ("uptime", []), ("pwd", []),
   ("ls", ["-a", "-l", "-la", "-al"])]

/-- Result of a completed child process (`subprocess.CompletedProcess`). -/
structure ExecResult where
  stdout : String
  stderr : String
  returncode : Int

/-- Exceptions `subprocess.run` can raise; `timeoutExpired` models
`subprocess.TimeoutExpired` (the 5-second wall clock elapsing). -/
inductive ProcException where
  | timeoutExpired : ProcException
  | osError : String → ProcException

/-- The child-process execution environment: what `subprocess.run`
returns (or raises) on a given argument vector.  Supplied as a parameter
because spawning is an external effect. -/
abbrev Exec := List String → Except ProcException ExecResult

/-- `SafeCommandRunner._parse_command(payload)`.  A list value is used
as-is (`[str(part) ...]`, the embedded lists already hold strings); a
string value is shell-word split by `shlex.split`, modelled by the
`split` parameter; anything else yields the empty command. -/
def parse_command (split : String → List String) (payload : Args) : List String :=
  match getArg payload "command" with
  | some (Value.strlist parts) => parts
  | some (Value.str s) => split s
  | _ => []

/-- Dictionary lookup in a `str → list[str]` table (`dict.__getitem__`
guarded by `in`). -/
def lookupTable : List (String × List String) → String → Option (List String)
  | [], _ => none
  | (k, v) :: rest, key => if k = key then some v else lookupTable rest key

/-- `SafeCommandRunner._is_allowed(command)`.  The Python code takes
`set(command[1:])` and checks `issubset`; membership of every provided
token is the same condition. -/
def is_allowed (command : List String) : Bool × String :=
  match command with
  | [] => (false, "No command provided.")
  | base :: rest =>
    match lookupTable SAFE_COMMANDS base with
    | none => (false, "Command '" ++ base ++ "' is not in the allowlist.")
    | some allowed_args =>
      if !allowed_args.isEmpty && !(rest.all (fun a => allowed_args.contains a)) then
        (false, "Command arguments are not allowlisted.")
      else if allowed_args.isEmpty && !rest.isEmpty then
        (false, "Command does not accept arguments.")
      else (true, "")

/-- `SafeCommandRunner.run(payload)`.  On rejection the denied result is
returned without consulting `exec`; on acceptance `subprocess.run` is
called on the exact token vector and any exception it raises (including
`TimeoutExpired`) propagates — there is no handler in `run`. -/
def SafeCommandRunner.run (split : String → List String) (exec : Exec)
    (payload : Args) : Except ProcException Args :=
  let command := parse_command split payload
  let ar := is_allowed command
  if !ar.1 then
    Except.ok [("status", Value.str "denied"), ("message", Value.str ar.2)]
  else
    match exec command with
    | Except.error e => Except.error e
    | Except.ok r =>
      Except.ok
        [("status", Value.str "ok"),
         ("command", Value.strlist command),
         ("stdout", Value.str r.stdout),
         ("stderr", Value.str r.stderr),
         ("returncode", Value.int r.returncode)]

/-- Characterisation of acceptance by `_is_allowed`: exactly the non-empty
commands whose base is an allowlist key and whose remaining tokens obey
that key's permitted-flags set. -/
theorem is_allowed_true_iff (command : List String) :
    (is_allowed command).1 = true ↔
      ∃ base rest allowed_args, command = base :: rest ∧
        lookupTable SAFE_COMMANDS base = some allowed_args ∧
        ((allowed_args = [] ∧ rest = []) ∨
         (allowed_args ≠ [] ∧ ∀ a ∈ rest, a ∈ allowed_args)) := by
  constructor
  · intro htrue
    cases command with
    | nil => simp [is_allowed] at htrue
    | cons base rest =>
      simp only [is_allowed] at htrue
      split at htrue
      · simp at htrue
      · rename_i al h
        split at htrue
        · simp at htrue
        · split at htrue
          · simp at htrue
          · rename_i hc1 hc2
            refine ⟨base, rest, al, rfl, h, ?_⟩
            by_cases hemp : al = []
            · subst hemp
              refine Or.inl ⟨rfl, ?_⟩
              have hre : rest.isEmpty = true := by
                by_contra hre
                exact hc2 (by simp [Bool.not_eq_true] at hre; simp [hre])
              exact List.isEmpty_iff.mp hre
            · refine Or.inr ⟨hemp, fun a ha => ?_⟩
              obtain ⟨a0, al', rfl⟩ : ∃ a0 al', al = a0 :: al' := by
                cases al with
                | nil => exact absurd rfl hemp
                | cons x xs => exact ⟨x, xs, rfl⟩
              have hall : ((a0 :: al').contains a) = true := by
                by_contra hf
                rw [Bool.not_eq_true] at hf
                apply hc1
                have hfall : (rest.all fun x => (a0 :: al').contains x) = false := by
                  rcases Bool.eq_false_or_eq_true
                      (rest.all fun x => (a0 :: al').contains x) with h0 | h0
                  · exact absurd (List.all_eq_true.mp h0 a ha)
                      (by rw [hf]; exact Bool.false_ne_true)
                  · exact h0
                rw [hfall]
                rfl
              simpa using hall
  · rintro ⟨base, rest, al, rfl, h, hcase⟩
    simp only [is_allowed, h]
    rcases hcase with ⟨rfl, rfl⟩ | ⟨hemp, hmem⟩
    · rfl
    · have hall : (rest.all fun a => al.contains a) = true :=
        List.all_eq_true.mpr (fun a ha => by simpa using hmem a ha)
      have hnone : ¬ ∃ x ∈ rest, x ∉ al := by
        rintro ⟨x, hx, hnx⟩
        exact hnx (hmem x hx)
      simp [List.isEmpty_iff, hemp, hall, hnone]

/-- C1: for every payload, if `SafeCommandRunner.run` returns a result whose
status is not "denied", then the tokenized command is non-empty, its base
name is a key of `SAFE_COMMANDS`, and every remaining token belongs to that
key's permitted-flags set when the set is non-empty (or there are no extra
tokens when it is empty).  Whenever validation rejects, the result is the
denied dictionary and is the same for every execution environment `exec`,
so no process is ever spawned on a rejected command. -/
theorem run_denies_unless_allowlisted (split : String → List String)
    (exec : Exec) (payload : Args) :
    (∀ r, SafeCommandRunner.run split exec payload = Except.ok r →
      getArg r "status" ≠ some (Value.str "denied") →
      ∃ base rest allowed_args,
        parse_command split payload = base :: rest ∧
        lookupTable SAFE_COMMANDS base = some allowed_args ∧
        ((allowed_args = [] ∧ rest = []) ∨
         (allowed_args ≠ [] ∧ ∀ a ∈ rest, a ∈ allowed_args))) ∧
    ((is_allowed (parse_command split payload)).1 = false →
      SafeCommandRunner.run split exec payload =
        Except.ok [("status", Value.str "denied"),
          ("message", Value.str (is_allowed (parse_command split payload)).2)]) := by
  have hden : (is_allowed (parse_command split payload)).1 = false →
      SafeCommandRunner.run split exec payload =
        Except.ok [("status", Value.str "denied"),
          ("message", Value.str (is_allowed (parse_command split payload)).2)] := by
    intro hfalse
    simp [SafeCommandRunner.run, hfalse]
  refine ⟨?_, hden⟩
  intro r hrun hstat
  rcases Bool.eq_false_or_eq_true (is_allowed (parse_command split payload)).1
    with hb | hb
  · exact (is_allowed_true_iff _).mp hb
  · exfalso
    apply hstat
    rw [hden hb] at hrun
    injection hrun with hr
    subst hr
    rfl

/-- Witness for C1: the payload `{command: "rm -rf /"}` (tokenized by the
shell-splitting oracle into `["rm", "-rf", "/"]`) is rejected with the
denied result, whatever the execution environment would have returned. -/
theorem run_denies_unless_allowlisted_witness :
    SafeCommandRunner.run (fun _ => ["rm", "-rf", "/"])
        (fun _ => Except.ok ⟨"out", "", 0⟩) [("command", Value.str "rm -rf /")] =
      Except.ok [("status", Value.str "denied"),
        ("message", Value.str "Command 'rm' is not in the allowlist.")] :=
  (run_denies_unless_allowlisted (fun _ => ["rm", "-rf", "/"])
    (fun _ => Except.ok ⟨"out", "", 0⟩) [("command", Value.str "rm -rf /")]).2 rfl

/-- C2 (refuted by the code): `SafeCommandRunner.run` calls
`subprocess.run(..., timeout=5)` with no exception handler, so when the
child-process execution of an accepted command exceeds the timeout, the
`TimeoutExpired` exception propagates to the caller instead of being
converted into a result value. -/
theorem run_timeout_escapes (split : String → List String) (payload : Args)
    (h : (is_allowed (parse_command split payload)).1 = true) :
    SafeCommandRunner.run split
        (fun _ => Except.error ProcException.timeoutExpired) payload =
      Except.error ProcException.timeoutExpired := by
  simp [SafeCommandRunner.run, h]

/-- Witness for C2: the allowlisted payload `{command: ["ls", "-la"]}`
whose execution times out makes `run` yield the exception, not a result. -/
theorem run_timeout_escapes_witness :
    SafeCommandRunner.run (fun _ => [])
        (fun _ => Except.error ProcException.timeoutExpired)
        [("command", Value.strlist ["ls", "-la"])] =
      Except.error ProcException.timeoutExpired :=
  run_timeout_escapes (fun _ => []) [("command", Value.strlist ["ls", "-la"])] rfl

/-! ### app/agent/router.py : argument synthesis -/

/-- `build_tool_arguments(tool_name, message)` from `app/agent/router.py`.
The Python code initialises `action`/`service` to a default and then
overrides it through `if`/`elif` keyword checks on the lowered message;
the nested conditionals below are that same decision tree. -/
def build_tool_arguments (tool_name : String) (message : String) : Args :=
  let lowered := strLower message
  if tool_name = "remember" then [("content", Value.str message)]
  else if tool_name = "store_summary" then [("content", Value.str message)]
  else if tool_name = "recall" then [("query", Value.str message)]
  else if tool_name = "create_task" then [("title", Value.str message)]
  else if tool_name = "calendar_crud" then
    let action :=
      if ["create", "schedule", "book"].any (fun w => strContains lowered w) then
        "create"
      else if ["update", "edit", "reschedule", "move"].any
          (fun w => strContains lowered w) then "update"
      else if ["delete", "cancel", "remove"].any
          (fun w => strContains lowered w) then "delete"
      else "list"
    [("action", Value.str action), ("request", Value.str message),
     ("approved", Value.bool false)]
  else if tool_name = "email_message" then
    let action :=
      if ["compose", "draft", "write"].any (fun w => strContains lowered w) then
        "compose"
      else if strContains lowered "send" then "send"
      else "search"
    [("action", Value.str action), ("request", Value.str message),
     ("approved", Value.bool false)]
  else if tool_name = "smart_home_control" then
    let service :=
      if strContains lowered "turn on" then Value.str "turn_on"
      else if strContains lowered "turn off" then Value.str "turn_off"
      else if strContains lowered "temperature" || strContains lowered "thermostat"
        then Value.str "set_temperature"
      else Value.null
    [("service", service), ("request", Value.str message),
     ("approved", Value.bool false)]
  else if tool_name = "system_command" then
    [("command", Value.str ""), ("request", Value.str message),
     ("approved", Value.bool false)]
  else []

/-- C5: for every raw message, the arguments synthesized for each of the
four sensitive capabilities carry `approved = false`, and the arguments
synthesized for the four non-sensitive capabilities carry no `approved`
field at all. -/
theorem build_tool_arguments_approved_default (message : String) :
    (∀ t ∈ SENSITIVE_TOOLS,
      getArg (build_tool_arguments t message) "approved" =
        some (Value.bool false)) ∧
    (∀ t ∈ ["remember", "store_summary", "recall", "create_task"],
      getArg (build_tool_arguments t message) "approved" = none) := by
  constructor <;>
    · intro t ht
      simp only [SENSITIVE_TOOLS, List.mem_cons, List.not_mem_nil, or_false] at ht
      rcases ht with rfl | rfl | rfl | rfl <;> rfl

/-- C3: `check_permission` always allows a non-sensitive capability with an
empty reason; for a sensitive capability it allows exactly when the
`approved` argument is the boolean `true`, and every denial carries the
fixed templated reason naming the capability.  (The embedding is a pure
function, so the decision is side-effect-free by construction.) -/
theorem check_permission_policy (name : String) (payload : Args) :
    (name ∉ SENSITIVE_TOOLS → check_permission name payload = (true, "")) ∧
    (name ∈ SENSITIVE_TOOLS →
      ((check_permission name payload).1 = true ↔
        getArg payload "approved" = some (Value.bool true)) ∧
      ((check_permission name payload).1 = false →
        check_permission name payload =
          (false, "Permission required to run " ++ name ++ "."))) := by
  by_cases hs : name ∈ SENSITIVE_TOOLS
  · refine ⟨fun hns => absurd hs hns, fun _ => ?_⟩
    cases hv : getArg payload "approved" with
    | none => simp [check_permission, hs, hv]
    | some v =>
      cases v with
      | bool b => cases b <;> simp [check_permission, hs, hv]
      | null => simp [check_permission, hs, hv]
      | int n => simp [check_permission, hs, hv]
      | str s => simp [check_permission, hs, hv]
      | strlist xs => simp [check_permission, hs, hv]
      | vdict kvs => simp [check_permission, hs, hv]
  · exact ⟨fun _ => by simp [check_permission, hs], fun h => absurd h hs⟩

/-- Witness for C3: `calendar_crud` with `approved = true` is allowed,
with `approved = false` it is denied with the templated reason, and the
non-sensitive `remember` is always allowed. -/
theorem check_permission_policy_witness :
    check_permission "remember" [] = (true, "") ∧
    (check_permission "calendar_crud" [("approved", Value.bool true)]).1 = true ∧
    check_permission "calendar_crud" [("approved", Value.bool false)] =
      (false, "Permission required to run calendar_crud.") := by
  refine ⟨(check_permission_policy "remember" []).1 (by simp [SENSITIVE_TOOLS]),
    ((check_permission_policy "calendar_crud"
        [("approved", Value.bool true)]).2 (by simp [SENSITIVE_TOOLS])).1.mpr rfl,
    ((check_permission_policy "calendar_crud"
        [("approved", Value.bool false)]).2 (by simp [SENSITIVE_TOOLS])).2 rfl⟩

/-- C10: for a sensitive capability, `check_permission` allows only when
the `approved` argument is identically the boolean `True`; any other value
(absent, `False`, or truthy non-booleans such as `1` or `"true"`) yields
the permission-required denial. -/
theorem check_permission_fail_closed (name : String) (payload : Args)
    (hs : name ∈ SENSITIVE_TOOLS) :
    (getArg payload "approved" ≠ some (Value.bool true) →
      check_permission name payload =
        (false, "Permission required to run " ++ name ++ ".")) ∧
    (getArg payload "approved" = some (Value.bool true) →
      check_permission name payload = (true, "")) := by
  constructor
  · intro hne
    cases hv : getArg payload "approved" with
    | none => simp [check_permission, hs, hv]
    | some v =>
      rw [hv] at hne
      cases v with
      | bool b =>
        cases b with
        | false => simp [check_permission, hs, hv]
        | true => exact absurd rfl hne
      | null => simp [check_permission, hs, hv]
      | int n => simp [check_permission, hs, hv]
      | str s => simp [check_permission, hs, hv]
      | strlist xs => simp [check_permission, hs, hv]
      | vdict kvs => simp [check_permission, hs, hv]
  · intro hv
    simp [check_permission, hs, hv]

/-- Witness for C10: `system_command` is denied when `approved` is the
truthy integer `1`, the string `"true"`, the boolean `False`, or absent,
and allowed when it is the boolean `True`. -/
theorem check_permission_fail_closed_witness :
    check_permission "system_command" [("approved", Value.int 1)] =
      (false, "Permission required to run system_command.") ∧
    check_permission "system_command" [("approved", Value.str "true")] =
      (false, "Permission required to run system_command.") ∧
    check_permission "system_command" [("approved", Value.bool false)] =
      (false, "Permission required to run system_command.") ∧
    check_permission "system_command" [] =
      (false, "Permission required to run system_command.") ∧
    check_permission "system_command" [("approved", Value.bool true)] =
      (true, "") := by
  refine ⟨(check_permission_fail_closed "system_command" [("approved", Value.int 1)]
      (by simp [SENSITIVE_TOOLS])).1
      (fun h => Value.noConfusion (Option.some.inj h)),
    (check_permission_fail_closed "system_command" [("approved", Value.str "true")]
      (by simp [SENSITIVE_TOOLS])).1
      (fun h => Value.noConfusion (Option.some.inj h)),
    (check_permission_fail_closed "system_command" [("approved", Value.bool false)]
      (by simp [SENSITIVE_TOOLS])).1 (by simp [getArg]),
    (check_permission_fail_closed "system_command" []
      (by simp [SENSITIVE_TOOLS])).1 (by simp [getArg]),
    (check_permission_fail_closed "system_command" [("approved", Value.bool true)]
      (by simp [SENSITIVE_TOOLS])).2 rfl⟩

/-- C7 counterexample: the message "note to remind me" contains "remind"
and none of the calendar or email keywords, yet `detect_intent` returns
"remember" (the remember/save/note group is matched first), not
"create_task". -/
theorem detect_intent_remind_counterexample :
    detect_intent "note to remind me" = "remember" ∧
    strContains (strLower "note to remind me") "remind" = true ∧
    (["calendar", "schedule", "meeting", "appointment", "email", "mail",
        "inbox", "message"].all
      (fun w => !(strContains (strLower "note to remind me") w))) = true ∧
    "remember" ≠ "create_task" := by
  refine ⟨by decide, by decide, by decide, by decide⟩

/-- C7 amended: a message containing "remind" is classified `create_task`
provided it also avoids the keywords of the two higher-priority groups
(remember/save/note and summary/summarize), and a message containing
"lights" is classified `smart_home` provided it avoids the keywords of all
six earlier groups. -/
theorem detect_intent_keyword_priority (m1 m2 : String)
    (h1 : strContains (strLower m1) "remind" = true)
    (h1a : strContains (strLower m1) "remember" = false)
    (h1b : strContains (strLower m1) "save" = false)
    (h1c : strContains (strLower m1) "note" = false)
    (h1d : strContains (strLower m1) "summary" = false)
    (h1e : strContains (strLower m1) "summarize" = false)
    (h2 : strContains (strLower m2) "lights" = true)
    (g1 : strContains (strLower m2) "remember" = false)
    (g2 : strContains (strLower m2) "save" = false)
    (g3 : strContains (strLower m2) "note" = false)
    (g4 : strContains (strLower m2) "summary" = false)
    (g5 : strContains (strLower m2) "summarize" = false)
    (g6 : strContains (strLower m2) "task" = false)
    (g7 : strContains (strLower m2) "todo" = false)
    (g8 : strContains (strLower m2) "remind" = false)
    (g9 : strContains (strLower m2) "recall" = false)
    (g10 : strContains (strLower m2) "search" = false)
    (g11 : strContains (strLower m2) "lookup" = false)
    (g12 : strContains (strLower m2) "find memory" = false)
    (g13 : strContains (strLower m2) "calendar" = false)
    (g14 : strContains (strLower m2) "schedule" = false)
    (g15 : strContains (strLower m2) "meeting" = false)
    (g16 : strContains (strLower m2) "appointment" = false)
    (g17 : strContains (strLower m2) "email" = false)
    (g18 : strContains (strLower m2) "mail" = false)
    (g19 : strContains (strLower m2) "inbox" = false)
    (g20 : strContains (strLower m2) "message" = false) :
    detect_intent m1 = "create_task" ∧ detect_intent m2 = "smart_home" := by
  constructor
  · simp [detect_intent, h1, h1a, h1b, h1c, h1d, h1e]
  · simp [detect_intent, h2, g1, g2, g3, g4, g5, g6, g7, g8, g9, g10, g11,
      g12, g13, g14, g15, g16, g17, g18, g19, g20]

/-- Witness for the amended C7: "remind me to buy milk" is classified
`create_task` and "turn on the lights" is classified `smart_home`. -/
theorem detect_intent_keyword_priority_witness :
    detect_intent "remind me to buy milk" = "create_task" ∧
    detect_intent "turn on the lights" = "smart_home" :=
  detect_intent_keyword_priority "remind me to buy milk" "turn on the lights"
    (by decide) (by decide) (by decide) (by decide) (by decide) (by decide)
    (by decide) (by decide) (by decide) (by decide) (by decide) (by decide)
    (by decide) (by decide) (by decide) (by decide) (by decide) (by decide)
    (by decide) (by decide) (by decide) (by decide) (by decide) (by decide)
    (by decide) (by decide) (by decide)

/-! ### app/storage/consent_store.py -/

/-- `ConsentRequest` from `app/storage/consent_store.py`. -/
structure ConsentRequest where
  id : String
  tool_name : String
  payload : Args
  status : String
  created_at : String
  resolved_at : Option String
  resolution : Option String

/-- `ConsentStore.create(tool_name, payload)`: the fresh uuid and the
current timestamp are passed in (`uuid4().hex`, `datetime.now`); the new
request starts `pending` and is appended to the stored list.  Returns the
request and the new store contents. -/
def ConsentStore.create (tool_name : String) (payload : Args)
    (uid now : String) (items : List ConsentRequest) :
    ConsentRequest × List ConsentRequest :=
  let request : ConsentRequest :=
    ⟨uid, tool_name, payload, "pending", now, none, none⟩
  (request, items ++ [request])

/-- The `for item in items ... break` loop of `ConsentStore.resolve`: the
first request whose id matches is overwritten in place (status, resolved
timestamp and resolution), later items are untouched. -/
def resolveLoop (request_id st now : String) :
    List ConsentRequest → Option ConsentRequest × List ConsentRequest
  | [] => (none, [])
  | item :: rest =>
    if item.id = request_id then
      let u := { item with status := st, resolved_at := some now,
                           resolution := some st }
      (some u, u :: rest)
    else
      let r := resolveLoop request_id st now rest
      (r.1, item :: r.2)

/-- `ConsentStore.resolve(request_id, approved)`: the loop above with
`"approved"`/`"denied"` chosen by the flag; when nothing matched the store
is not re-saved, so its contents are unchanged. -/
def ConsentStore.resolve (request_id : String) (approved : Bool)
    (now : String) (items : List ConsentRequest) :
    Option ConsentRequest × List ConsentRequest :=
  resolveLoop request_id (if approved then "approved" else "denied") now items

/-- `resolveLoop` on a list with no matching id returns `none` and the
list unchanged. -/
theorem resolveLoop_not_found (request_id st now : String)
    (items : List ConsentRequest) (h : ∀ r ∈ items, r.id ≠ request_id) :
    resolveLoop request_id st now items = (none, items) := by
  induction items with
  | nil => rfl
  | cons item rest ih =>
    have hne : item.id ≠ request_id := h item (List.mem_cons_self item rest)
    simp only [resolveLoop, if_neg hne,
      ih (fun r hr => h r (List.mem_cons_of_mem item hr))]

/-- `resolveLoop` on a list whose first match is `item` overwrites exactly
that request. -/
theorem resolveLoop_found (request_id st now : String)
    (pre post : List ConsentRequest) (item : ConsentRequest)
    (hpre : ∀ r ∈ pre, r.id ≠ request_id) (hitem : item.id = request_id) :
    resolveLoop request_id st now (pre ++ item :: post) =
      (some { item with status := st, resolved_at := some now,
                        resolution := some st },
       pre ++ { item with status := st, resolved_at := some now,
                          resolution := some st } :: post) := by
  induction pre with
  | nil => simp [resolveLoop, hitem]
  | cons p pre ih =>
    have hne : p.id ≠ request_id := hpre p (List.mem_cons_self p pre)
    have ih2 := ih (fun r hr => hpre r (List.mem_cons_of_mem p hr))
    simp [resolveLoop, hne, ih2]

/-- C4 counterexample: starting from an empty ledger, `create` then
`resolve(id, true)` yields status `approved`, and a further
`resolve(id, false)` changes that same request to `denied` — the
`approved` status is not terminal. -/
theorem consent_approved_not_terminal_counterexample :
    ((ConsentStore.resolve "id1" true "t1"
        (ConsentStore.create "calendar_crud" [] "id1" "t0" []).2).2.map
      ConsentRequest.status = ["approved"]) ∧
    ((ConsentStore.resolve "id1" false "t2"
        (ConsentStore.resolve "id1" true "t1"
          (ConsentStore.create "calendar_crud" [] "id1" "t0" []).2).2).2.map
      ConsentRequest.status = ["denied"]) :=
  ⟨rfl, rfl⟩

/-- C4 amended: `resolve(id, b)` overwrites the status of the first
request with that id to approved/denied regardless of its current status
(so `pending → approved/denied` holds, but approved and denied are not
terminal: a later resolve can change them), stamping `resolved_at` and
`resolution`; resolving an id not present in the ledger returns the
NotFound value `none`, never crashes, and leaves the ledger unchanged. -/
theorem consent_resolve_overwrites (request_id : String) (approved : Bool)
    (now : String) (items : List ConsentRequest) :
    ((∀ r ∈ items, r.id ≠ request_id) →
      ConsentStore.resolve request_id approved now items = (none, items)) ∧
    (∀ pre post item, items = pre ++ item :: post →
      (∀ r ∈ pre, r.id ≠ request_id) → item.id = request_id →
      ConsentStore.resolve request_id approved now items =
        (some { item with
                  status := if approved then "approved" else "denied",
                  resolved_at := some now,
                  resolution := some (if approved then "approved" else "denied") },
         pre ++ { item with
                  status := if approved then "approved" else "denied",
                  resolved_at := some now,
                  resolution := some (if approved then "approved" else "denied") }
           :: post)) := by
  constructor
  · intro h
    exact resolveLoop_not_found request_id _ now items h
  · intro pre post item hitems hpre hitem
    subst hitems
    exact resolveLoop_found request_id _ now pre post item hpre hitem

/-- Witness for the amended C4: in a two-request ledger, resolving the
second request (already `denied`) with `approved = true` overwrites it to
`approved`, and resolving an unknown id is a NotFound no-op. -/
theorem consent_resolve_overwrites_witness :
    ConsentStore.resolve "r2" true "t9"
        [⟨"r1", "email_message", [], "pending", "t0", none, none⟩,
         ⟨"r2", "calendar_crud", [], "denied", "t1", some "t2", some "denied"⟩] =
      (some ⟨"r2", "calendar_crud", [], "approved", "t1", some "t9",
         some "approved"⟩,
       [⟨"r1", "email_message", [], "pending", "t0", none, none⟩,
        ⟨"r2", "calendar_crud", [], "approved", "t1", some "t9",
         some "approved"⟩]) ∧
    ConsentStore.resolve "zzz" false "t9"
        [⟨"r1", "email_message", [], "pending", "t0", none, none⟩] =
      (none, [⟨"r1", "email_message", [], "pending", "t0", none, none⟩]) := by
  constructor
  · exact (consent_resolve_overwrites "r2" true "t9" _).2
      [⟨"r1", "email_message", [], "pending", "t0", none, none⟩] []
      ⟨"r2", "calendar_crud", [], "denied", "t1", some "t2", some "denied"⟩
      rfl (by intro r hr; simp at hr; subst hr; decide) rfl
  · exact (consent_resolve_overwrites "zzz" false "t9" _).1
      (by intro r hr; simp at hr; subst hr; decide)

/-! ### app/storage/audit_log.py -/

/-- `AuditLogEntry` from `app/storage/audit_log.py`. -/
structure AuditLogEntry where
  id : String
  event : String
  actor : String
  details : Args
  created_at : String

/-- `AuditLogger.append(event, actor, details)`: builds the entry (uuid
and timestamp passed in) and appends its JSON line to the log file; the
file is modelled as the list of entries its lines serialise, so appending
a line appends an entry. -/
def AuditLogger.append (event actor : String) (details : Args)
    (uid now : String) (lines : List AuditLogEntry) :
    AuditLogEntry × List AuditLogEntry :=
  let entry : AuditLogEntry := ⟨uid, event, actor, details, now⟩
  (entry, lines ++ [entry])

/-- `AuditLogger.list_entries(limit)`: Python evaluates `lines[-limit:]`.
For `limit > 0` that is the last `min(limit, len)` lines; for `limit = 0`
the slice `lines[-0:]` is `lines[0:]`, the whole file.  Written lines are
never blank and parse back to the entry they serialise, so the
blank-line filter and the JSON round trip are identities here. -/
def AuditLogger.list_entries (limit : Nat) (lines : List AuditLogEntry) :
    List AuditLogEntry :=
  if limit = 0 then lines else lines.drop (lines.length - limit)

/-- C6 counterexample: after one `append`, `list_entries` with
`limit = 0 < 1` returns that one entry (the whole log) rather than the
most recent zero entries. -/
theorem audit_list_limit_zero_counterexample :
    AuditLogger.list_entries 0
        (AuditLogger.append "chat_received" "user" [] "id1" "t0" []).2 =
      [⟨"id1", "chat_received", "user", [], "t0"⟩] ∧
    ([(⟨"id1", "chat_received", "user", [], "t0"⟩ : AuditLogEntry)].length ≠ 0) :=
  ⟨rfl, by decide⟩

/-- C6 amended: after the `append` calls produce the log `pre ++ suf`,
`list_entries` with limit the full length returns every entry in append
order, and with a positive limit `k = suf.length` it returns exactly the
most recent `k` entries `suf` in chronological order; the exception is
`limit = 0`, which returns the whole log instead of zero entries. -/
theorem audit_list_entries_window (pre suf : List AuditLogEntry) :
    (AuditLogger.list_entries (pre ++ suf).length (pre ++ suf) = pre ++ suf) ∧
    (suf ≠ [] → AuditLogger.list_entries suf.length (pre ++ suf) = suf) ∧
    (AuditLogger.list_entries 0 (pre ++ suf) = pre ++ suf) := by
  refine ⟨?_, ?_, rfl⟩
  · by_cases h : (pre ++ suf).length = 0
    · simp [AuditLogger.list_entries, h, List.length_eq_zero.mp h]
    · simp [AuditLogger.list_entries, h]
  · intro hne
    have hk : suf.length ≠ 0 := fun h => hne (List.length_eq_zero.mp h)
    have hdrop : (pre ++ suf).length - suf.length = pre.length := by
      simp [List.length_append]
    simp [AuditLogger.list_entries, hk, hdrop, List.drop_left]

/-- Witness for the amended C6: a three-entry log queried with limits 3,
2 and 0. -/
theorem audit_list_entries_window_witness :
    AuditLogger.list_entries 3
        [⟨"a", "e1", "user", [], "t1"⟩, ⟨"b", "e2", "user", [], "t2"⟩,
         ⟨"c", "e3", "user", [], "t3"⟩] =
      [⟨"a", "e1", "user", [], "t1"⟩, ⟨"b", "e2", "user", [], "t2"⟩,
       ⟨"c", "e3", "user", [], "t3"⟩] ∧
    AuditLogger.list_entries 2
        [⟨"a", "e1", "user", [], "t1"⟩, ⟨"b", "e2", "user", [], "t2"⟩,
         ⟨"c", "e3", "user", [], "t3"⟩] =
      [⟨"b", "e2", "user", [], "t2"⟩, ⟨"c", "e3", "user", [], "t3"⟩] := by
  constructor
  · exact (audit_list_entries_window []
      [⟨"a", "e1", "user", [], "t1"⟩, ⟨"b", "e2", "user", [], "t2"⟩,
       ⟨"c", "e3", "user", [], "t3"⟩]).1
  · exact (audit_list_entries_window [⟨"a", "e1", "user", [], "t1"⟩]
      [⟨"b", "e2", "user", [], "t2"⟩, ⟨"c", "e3", "user", [], "t3"⟩]).2.1
      (by intro h; cases h)

/-! ### app/tools/registry.py -/

/-- The eleven handler functions bound at registration time.  Their
side-effecting semantics (memory store, adapters, command runner) is
supplied to the orchestrator as an environment; the tag records which
function a tool dispatches to. -/
inductive HandlerTag where
  | rememberTool
  | storeSummaryTool
  | indexDocumentTool
  | recallTool
  | forgetMemoryTool
  | exportMemoryTool
  | createTaskTool
  | calendarCrudTool
  | emailMessageTool
  | smartHomeTool
  | systemCommandTool

/-- `Tool` from `app/tools/registry.py`. -/
structure Tool where
  name : String
  description : String
  input_schema : Value
  handler : HandlerTag

/-- The `input_schema` of the `calendar_crud` registration in
`app/tools/registry.py`. -/
def calendarCrudSchema : Value :=
  Value.vdict [("type", Value.str "object"),
    ("properties", Value.vdict
      [("provider", Value.vdict [("type", Value.str "string"),
          ("enum", Value.strlist ["google", "outlook"])]),
       ("action", Value.vdict [("type", Value.str "string"),
          ("enum", Value.strlist
            ["create", "read", "update", "delete", "list"])]),
       ("title", Value.vdict [("type", Value.str "string")]),
       ("start", Value.vdict [("type", Value.str "string")]),
       ("end", Value.vdict [("type", Value.str "string")]),
       ("attendees", Value.vdict [("type", Value.str "array"),
          ("items", Value.vdict [("type", Value.str "string")])]),
       ("location", Value.vdict [("type", Value.str "string")]),
       ("event_id", Value.vdict [("type", Value.str "string")]),
       ("approved", Value.vdict [("type", Value.str "boolean")])])]

/-- `TOOLS` after the module-level `register_tool` calls run: the dict is
keyed by name, all eleven names are distinct, and Python dicts preserve
insertion order, so the registry is this list. -/
def TOOLS : List Tool :=
  [⟨"remember", "Store a memory snippet for later retrieval.",
    Value.vdict [("type", Value.str "object"),
      ("properties", Value.vdict
        [("content", Value.vdict [("type", Value.str "string")]),
         ("metadata", Value.vdict [("type", Value.str "object")])]),
      ("required", Value.strlist ["content"])],
    HandlerTag.rememberTool⟩,
   ⟨"store_summary", "Store a conversation summary for long-term recall.",
    Value.vdict [("type", Value.str "object"),
      ("properties", Value.vdict
        [("content", Value.vdict [("type", Value.str "string")]),
         ("metadata", Value.vdict [("type", Value.str "object")])]),
      ("required", Value.strlist ["content"])],
    HandlerTag.storeSummaryTool⟩,
   ⟨"index_document", "Index a document into vector memory for search.",
    Value.vdict [("type", Value.str "object"),
      ("properties", Value.vdict
        [("content", Value.vdict [("type", Value.str "string")]),
         ("metadata", Value.vdict [("type", Value.str "object")])]),
      ("required", Value.strlist ["content"])],
    HandlerTag.indexDocumentTool⟩,
   ⟨"recall", "Retrieve relevant memories by semantic search.",
    Value.vdict [("type", Value.str "object"),
      ("properties", Value.vdict
        [("query", Value.vdict [("type", Value.str "string")]),
         ("limit", Value.vdict [("type", Value.str "integer"),
            ("minimum", Value.int 1), ("maximum", Value.int 20)]),
         ("memory_type", Value.vdict [("type", Value.str "string")])]),
      ("required", Value.strlist ["query"])],
    HandlerTag.recallTool⟩,
   ⟨"forget_memory", "Remove memories by id, type, tag, or timestamp.",
    Value.vdict [("type", Value.str "object"),
      ("properties", Value.vdict
        [("ids", Value.vdict [("type", Value.str "array"),
            ("items", Value.vdict [("type", Value.str "string")])]),
         ("memory_type", Value.vdict [("type", Value.str "string")]),
         ("tag", Value.vdict [("type", Value.str "string")]),
         ("before", Value.vdict [("type", Value.str "string"),
            ("description", Value.str "ISO-8601 timestamp")]),
         ("purge_all", Value.vdict [("type", Value.str "boolean")])])],
    HandlerTag.forgetMemoryTool⟩,
   ⟨"export_memory", "Export all stored memories and metadata.",
    Value.vdict [("type", Value.str "object"),
      ("properties", Value.vdict [])],
    HandlerTag.exportMemoryTool⟩,
   ⟨"create_task", "Create a new task for the agent to track.",
    Value.vdict [("type", Value.str "object"),
      ("properties", Value.vdict
        [("title", Value.vdict [("type", Value.str "string")]),
         ("status", Value.vdict [("type", Value.str "string")]),
         ("metadata", Value.vdict [("type", Value.str "object")])]),
      ("required", Value.strlist ["title"])],
    HandlerTag.createTaskTool⟩,
   ⟨"calendar_crud",
    "Create, read, update, or delete calendar events for Google or Outlook.",
    calendarCrudSchema,
    HandlerTag.calendarCrudTool⟩,
   ⟨"email_message",
    "Search, compose, or send emails using Google or Outlook.",
    Value.vdict [("type", Value.str "object"),
      ("properties", Value.vdict
        [("provider", Value.vdict [("type", Value.str "string"),
            ("enum", Value.strlist ["google", "outlook"])]),
         ("action", Value.vdict [("type", Value.str "string"),
            ("enum", Value.strlist ["search", "compose", "send"])]),
         ("query", Value.vdict [("type", Value.str "string")]),
         ("to", Value.vdict [("type", Value.str "array"),
            ("items", Value.vdict [("type", Value.str "string")])]),
         ("subject", Value.vdict [("type", Value.str "string")]),
         ("body", Value.vdict [("type", Value.str "string")]),
         ("cc", Value.vdict [("type", Value.str "array"),
            ("items", Value.vdict [("type", Value.str "string")])]),
         ("bcc", Value.vdict [("type", Value.str "array"),
            ("items", Value.vdict [("type", Value.str "string")])]),
         ("draft_id", Value.vdict [("type", Value.str "string")]),
         ("approved", Value.vdict [("type", Value.str "boolean")])])],
    HandlerTag.emailMessageTool⟩,
   ⟨"smart_home_control", "Control Home Assistant devices and services.",
    Value.vdict [("type", Value.str "object"),
      ("properties", Value.vdict
        [("service", Value.vdict [("type", Value.str "string")]),
         ("entity_id", Value.vdict [("type", Value.str "string")]),
         ("device_id", Value.vdict [("type", Value.str "string")]),
         ("data", Value.vdict [("type", Value.str "object")]),
         ("approved", Value.vdict [("type", Value.str "boolean")])])],
    HandlerTag.smartHomeTool⟩,
   ⟨"system_command", "Run a safe, allowlisted system command.",
    Value.vdict [("type", Value.str "object"),
      ("properties", Value.vdict
        [("command", Value.vdict [("type", Value.strlist ["string", "array"]),
            ("items", Value.vdict [("type", Value.str "string")])]),
         ("approved", Value.vdict [("type", Value.str "boolean")])]),
      ("required", Value.strlist ["command"])],
    HandlerTag.systemCommandTool⟩]

/-- Exceptions the embedded registry code can raise.  `keyError` is the
`KeyError` a Python dict subscript raises on a missing key. -/
inductive PyError where
  | keyError : String → PyError

/-- Dictionary lookup by tool name (`TOOLS[name]` resolution order). -/
def lookupTool : List Tool → String → Option Tool
  | [], _ => none
  | t :: rest, name => if t.name = name then some t else lookupTool rest name

/-- `get_tool(name)` from `app/tools/registry.py`: `TOOLS[name]`, which
raises `KeyError(name)` when the name is not registered. -/
def get_tool (name : String) : Except PyError Tool :=
  match lookupTool TOOLS name with
  | some t => Except.ok t
  | none => Except.error (PyError.keyError name)

/-- `lookupTool` finds a tool exactly when the name is registered, and
the found tool carries that name. -/
theorem lookupTool_mem (ts : List Tool) (name : String) :
    (lookupTool ts name = none ↔ name ∉ ts.map Tool.name) ∧
    (∀ t, lookupTool ts name = some t → t.name = name ∧ t ∈ ts) := by
  induction ts with
  | nil => simp [lookupTool]
  | cons t0 rest ih =>
    by_cases h : t0.name = name
    · constructor
      · simp [lookupTool, h]
      · intro t ht
        rw [lookupTool, if_pos h] at ht
        injection ht with ht
        subst ht
        exact ⟨h, List.mem_cons_self t0 rest⟩
    · constructor
      · simp only [lookupTool, if_neg h, List.map_cons, List.mem_cons]
        rw [ih.1]
        constructor
        · intro hn hc
          rcases hc with hc | hc
          · exact h hc.symm
          · exact hn hc
        · intro hn
          exact fun hc => hn (Or.inr hc)
      · intro t ht
        rw [lookupTool, if_neg h] at ht
        obtain ⟨h1, h2⟩ := ih.2 t ht
        exact ⟨h1, List.mem_cons_of_mem t0 h2⟩

/-- C9: the registered capability names are exactly the eleven from
`register_tool`; `get_tool` on any unregistered name fails with the
structured `KeyError` value (never returning a tool, never crashing the
embedding), and on every registered name succeeds with a tool of that
name. -/
theorem get_tool_found_iff_registered (name : String) :
    TOOLS.map Tool.name =
      ["remember", "store_summary", "index_document", "recall",
       "forget_memory", "export_memory", "create_task", "calendar_crud",
       "email_message", "smart_home_control", "system_command"] ∧
    (name ∉ TOOLS.map Tool.name →
      get_tool name = Except.error (PyError.keyError name)) ∧
    (name ∈ TOOLS.map Tool.name →
      ∃ t, get_tool name = Except.ok t ∧ t.name = name ∧ t ∈ TOOLS) := by
  refine ⟨rfl, ?_, ?_⟩
  · intro hn
    unfold get_tool
    rw [(lookupTool_mem TOOLS name).1.mpr hn]
  · intro hn
    unfold get_tool
    cases hl : lookupTool TOOLS name with
    | none => exact absurd ((lookupTool_mem TOOLS name).1.mp hl) (by simpa using hn)
    | some t =>
      obtain ⟨h1, h2⟩ := (lookupTool_mem TOOLS name).2 t hl
      exact ⟨t, rfl, h1, h2⟩

/-- Witness for C9: an unknown name yields the `KeyError` value and the
registered `calendar_crud` resolves to a tool of that name. -/
theorem get_tool_found_iff_registered_witness :
    get_tool "frobnicate" = Except.error (PyError.keyError "frobnicate") ∧
    ∃ t, get_tool "calendar_crud" = Except.ok t ∧ t.name = "calendar_crud" ∧
      t ∈ TOOLS := by
  constructor
  · exact (get_tool_found_iff_registered "frobnicate").2.1 (by decide)
  · exact (get_tool_found_iff_registered "calendar_crud").2.2 (by decide)

/-! ### app/agent/router.py : run_agent, and app/main.py : chat_endpoint -/

/-- `ToolCall` from `app/agent/router.py`. -/
structure ToolCall where
  name : String
  arguments : Args
  schema : Value
  result : Args

/-- `AgentResponse` from `app/agent/router.py`. -/
structure AgentResponse where
  intent : String
  provider : String
  completion : Args
  tool_calls : List ToolCall

/-- The external completion backend: `get_provider(name).generate(prompt,
context={"intent": intent})` never fails (`get_provider` falls back to the
local provider), so it is a total oracle from the message and intent to
the completion dictionary. -/
abbrev Gen := String → String → Args

/-- The side-effecting semantics of the registered handler functions
(memory store, adapters, command runner), supplied as an environment; a
handler may raise (e.g. the command runner's `TimeoutExpired`). -/
abbrev HandlerExec := HandlerTag → Args → Except PyError Args

/-- The `for tool_name in select_tools(intent)` loop of `run_agent`: look
the tool up, synthesize arguments, gate, and either short-circuit to the
`permission_required` result or invoke the handler; any exception aborts
the request. -/
def runToolCalls (execHandler : HandlerExec) (message : String) :
    List String → Except PyError (List ToolCall)
  | [] => Except.ok []
  | tool_name :: rest =>
    match get_tool tool_name with
    | Except.error e => Except.error e
    | Except.ok tool =>
      let arguments := build_tool_arguments tool_name message
      let pr := check_permission tool_name arguments
      let res : Except PyError Args :=
        if pr.1 then execHandler tool.handler arguments
        else Except.ok [("status", Value.str "permission_required"),
                        ("message", Value.str pr.2)]
      match res with
      | Except.error e => Except.error e
      | Except.ok result =>
        match runToolCalls execHandler message rest with
        | Except.error e => Except.error e
        | Except.ok calls =>
          Except.ok (⟨tool.name, arguments, tool.input_schema, result⟩ :: calls)

/-- `run_agent(message, provider_name)` from `app/agent/router.py`. -/
def run_agent (gen : Gen) (execHandler : HandlerExec)
    (message provider_name : String) : Except PyError AgentResponse :=
  let intent := detect_intent message
  let completion := gen message intent
  match runToolCalls execHandler message (select_tools intent) with
  | Except.error e => Except.error e
  | Except.ok tool_calls =>
    Except.ok ⟨intent, provider_name, completion, tool_calls⟩

/-- `d.get(key, default)`. -/
def dictGetDefault (d : Args) (key : String) (default : Value) : Value :=
  match getArg d key with
  | some v => v
  | none => default

/-- `chat_endpoint(payload)` from `app/main.py`: run the agent, append
exactly one `chat_received` audit entry (uuid and timestamp passed in),
and return the completion text with the new audit log. -/
def chat_endpoint (gen : Gen) (execHandler : HandlerExec)
    (message provider uid now : String) (audit : List AuditLogEntry) :
    Except PyError (Value × List AuditLogEntry) :=
  match run_agent gen execHandler message provider with
  | Except.error e => Except.error e
  | Except.ok response =>
    let ap := AuditLogger.append "chat_received" "user"
      [("intent", Value.str response.intent),
       ("provider", Value.str response.provider),
       ("tool_calls", Value.strlist (response.tool_calls.map ToolCall.name))]
      uid now audit
    Except.ok (dictGetDefault response.completion "completion" (Value.str ""),
      ap.2)

/-- C8: for the message "schedule a meeting tomorrow" the intent is
`calendar`, the capability `calendar_crud` is selected, the synthesized
arguments are `{action: "create", request: message, approved: false}`, the
gate denies, the tool-call result is the `permission_required` dictionary
— all independent of the handler environment `execHandler`, so the
adapter is never invoked — and the chat endpoint appends exactly one
audit entry with event `chat_received` whose details contain
`intent: calendar`. -/
theorem chat_schedule_meeting_end_to_end (gen : Gen)
    (execHandler : HandlerExec) (provider uid now : String)
    (audit : List AuditLogEntry) :
    run_agent gen execHandler "schedule a meeting tomorrow" provider =
      Except.ok ⟨"calendar", provider,
        gen "schedule a meeting tomorrow" "calendar",
        [⟨"calendar_crud",
          [("action", Value.str "create"),
           ("request", Value.str "schedule a meeting tomorrow"),
           ("approved", Value.bool false)],
          calendarCrudSchema,
          [("status", Value.str "permission_required"),
           ("message",
            Value.str "Permission required to run calendar_crud.")]⟩]⟩ ∧
    chat_endpoint gen execHandler "schedule a meeting tomorrow" provider
        uid now audit =
      Except.ok
        (dictGetDefault (gen "schedule a meeting tomorrow" "calendar")
          "completion" (Value.str ""),
         audit ++
          [⟨uid, "chat_received", "user",
            [("intent", Value.str "calendar"),
             ("provider", Value.str provider),
             ("tool_calls", Value.strlist ["calendar_crud"])], now⟩]) ∧
    getArg
        [("intent", Value.str "calendar"), ("provider", Value.str provider),
         ("tool_calls", Value.strlist ["calendar_crud"])] "intent" =
      some (Value.str "calendar") :=
  ⟨rfl, rfl, rfl⟩

end Jarvis
